import Mathlib

/-!
Verification of the BookMyShow subscriber service (Express + Mongoose).

The repository has two source files: `app.js` (the HTTP API service) and
`src/createDatabase.js` (the one-shot seeding script).  The document store
(MongoDB via Mongoose) is an external collaborator; here it is embedded as an
explicit state — a list of subscriber documents — and each handler is a pure
function from the request, the store state, and an injected store-failure
outcome to an HTTP response together with the trace of store operations it
performed.  Applying the trace to the store state yields the post-request
store, which makes frame properties (read-only handlers, "no write attempted")
directly statable.
-/

/-- A JSON value, as carried in request and response bodies. -/
inductive JsonV where
  | null : JsonV
  | str (s : String) : JsonV
  | num (n : Int) : JsonV
  | bool (b : Bool) : JsonV
  | arr (xs : List JsonV) : JsonV
  | obj (fields : List (String × JsonV)) : JsonV
deriving Repr

/-- JavaScript truthiness of a JSON value: `null`, `""`, `0` and `false`
are falsy; every other JSON value is truthy (arrays and objects always are). -/
def jsonTruthy : JsonV → Bool
  | JsonV.null => false
  | JsonV.str s => !s.isEmpty
  | JsonV.num n => n != 0
  | JsonV.bool b => b
  | JsonV.arr _ => true
  | JsonV.obj _ => true

/-- The value of a destructured request-body field: `none` models a key that
is absent from the JSON body (JavaScript `undefined`), which is falsy. -/
def fieldTruthy : Option JsonV → Bool
  | none => false
  | some v => jsonTruthy v

/-- A `POST /subscribers` request body, after `express.json()` parsing:
each of the two recognised keys is either absent or bound to a JSON value. -/
structure Body where
  name : Option JsonV
  subscribedChannel : Option JsonV

/-- A persisted subscriber document.  Modelled from the spec: the schema file
`src/models/subscribers` is not in the repository snapshot; §3 of the spec
defines the sole entity as a store-assigned unique identifier plus the two
text fields `name` and `subscribedChannel`. -/
structure Subscriber where
  _id : String
  name : String
  subscribedChannel : String
deriving Repr, DecidableEq

/-- The persisted state of the `subscribers` collection. -/
abbrev Store := List Subscriber

/-- Mongoose's cast of a JSON value to a `String` schema field (used when a
truthy non-string value is saved).  Modelled from the spec: §3 defines both
mutable fields as text. -/
def jsonAsString : JsonV → String
  | JsonV.null => "null"
  | JsonV.str s => s
  | JsonV.num n => toString n
  | JsonV.bool b => toString b
  | JsonV.arr _ => ""
  | JsonV.obj _ => ""

/-- Serialisation of a full subscriber document, as `res.json` emits it
(`_id`, `name`, `subscribedChannel`). -/
def subToJson (s : Subscriber) : JsonV :=
  JsonV.obj [("_id", JsonV.str s._id), ("name", JsonV.str s.name),
             ("subscribedChannel", JsonV.str s.subscribedChannel)]

/-- Serialisation of a subscriber under the projection
`select("name subscribedChannel -_id")`: only the two text fields. -/
def nameDocJson (s : Subscriber) : JsonV :=
  JsonV.obj [("name", JsonV.str s.name),
             ("subscribedChannel", JsonV.str s.subscribedChannel)]

/-- The keys of a JSON object (and `[]` on non-objects). -/
def jsonObjKeys : JsonV → List String
  | JsonV.obj fs => fs.map Prod.fst
  | _ => []

/-- An HTTP response: status code and JSON body. -/
structure Response where
  status : Nat
  body : JsonV
deriving Repr

/-- A store operation performed by a handler, recorded in its trace. -/
inductive StoreOp where
  | find : StoreOp
  | findSelect : StoreOp
  | findById (id : String) : StoreOp
  | save (s : Subscriber) : StoreOp
  | deleteMany : StoreOp
  | insertMany (recs : List Subscriber) : StoreOp
deriving Repr, DecidableEq

/-- Effect of a store operation on the collection: the three query
operations are pure reads, `save` appends one document, `deleteMany {}`
clears the collection, `insertMany` appends the given documents. -/
def applyOp (store : Store) : StoreOp → Store
  | StoreOp.find => store
  | StoreOp.findSelect => store
  | StoreOp.findById _ => store
  | StoreOp.save s => store ++ [s]
  | StoreOp.deleteMany => []
  | StoreOp.insertMany recs => store ++ recs

/-- The store state after running a trace of operations. -/
def applyOps (ops : List StoreOp) (store : Store) : Store :=
  ops.foldl applyOp store

/-- Whether a store operation is a pure read. -/
def isReadOp : StoreOp → Bool
  | StoreOp.find => true
  | StoreOp.findSelect => true
  | StoreOp.findById _ => true
  | _ => false

/-- Validity of a path parameter as a store identifier.  Modelled from the
spec: the store is an external collaborator whose identifiers are MongoDB
ObjectIds; `findById` on a string that is not 24 hexadecimal characters
throws a cast error instead of returning `null`. -/
def isValidObjectId (s : String) : Bool :=
  s.length == 24 && s.toList.all (fun c =>
    c.isDigit || ('a' ≤ c && c ≤ 'f') || ('A' ≤ c && c ≤ 'F'))

/-- Outcome of `Subscriber.findById(id)`: an injected store failure or a
malformed identifier throws; otherwise the first document with that `_id`,
or `none` when no document matches. -/
def findByIdStore (store : Store) (id : String) (storeFail : Option String) :
    Except String (Option Subscriber) :=
  match storeFail with
  | some msg => Except.error msg
  | none =>
      if isValidObjectId id then
        Except.ok (store.find? (fun s => s._id == id))
      else
        Except.error "Cast to ObjectId failed"

/-- The fixed 400 response of the by-id route. -/
def subscriberNotFound : Response :=
  { status := 400, body := JsonV.obj [("message", JsonV.str "Subscriber not found")] }

/-- The fixed 400 response of the create route's presence check. -/
def requiredFieldsResp : Response :=
  { status := 400,
    body := JsonV.obj [("message", JsonV.str "Name and subscribedChannel are required.")] }

/-- A 500 response carrying the store error's message. -/
def serverError (msg : String) : Response :=
  { status := 500, body := JsonV.obj [("message", JsonV.str msg)] }

/-- Handler of `GET /subscribers` (app.js lines 57–64): one
`Subscriber.find()` call; 200 with the full serialised collection on
success, 500 with the error message on a store failure. -/
def getSubscribers (store : Store) (storeFail : Option String) :
    Response × List StoreOp :=
  match storeFail with
  | some msg => (serverError msg, [StoreOp.find])
  | none => ({ status := 200, body := JsonV.arr (store.map subToJson) }, [StoreOp.find])

/-- Handler of `POST /subscribers` (app.js lines 67–84): destructures
`name` and `subscribedChannel` from the body; if either is falsy, returns
the fixed 400 before any store call; otherwise saves a new document with
the given fresh identifier and returns it with 201, or 500 with the error
message when `save` fails. -/
def postSubscribers (body : Body) (freshId : String) (storeFail : Option String) :
    Response × List StoreOp :=
  if !fieldTruthy body.name || !fieldTruthy body.subscribedChannel then
    (requiredFieldsResp, [])
  else
    match storeFail with
    | some msg => (serverError msg, [])
    | none =>
        let sub : Subscriber :=
          { _id := freshId,
            name := jsonAsString (body.name.getD JsonV.null),
            subscribedChannel := jsonAsString (body.subscribedChannel.getD JsonV.null) }
        ({ status := 201, body := subToJson sub }, [StoreOp.save sub])

/-- Handler of `GET /subscribers/name` (app.js lines 99–108): one
`find().select("name subscribedChannel -_id")` call; 200 with the projected
collection on success, 500 with the error message on a store failure. -/
def getSubscriberNames (store : Store) (storeFail : Option String) :
    Response × List StoreOp :=
  match storeFail with
  | some msg => (serverError msg, [StoreOp.findSelect])
  | none =>
      ({ status := 200, body := JsonV.arr (store.map nameDocJson) }, [StoreOp.findSelect])

/-- Handler of `GET /subscribers/:id` (app.js lines 130–140): one
`findById` call; a thrown error (malformed id or store failure) and a
`null` result both map to the same fixed 400; a match returns 200 with the
document. -/
def getSubscriberById (store : Store) (id : String) (storeFail : Option String) :
    Response × List StoreOp :=
  match findByIdStore store id storeFail with
  | Except.error _ => (subscriberNotFound, [StoreOp.findById id])
  | Except.ok none => (subscriberNotFound, [StoreOp.findById id])
  | Except.ok (some s) => ({ status := 200, body := subToJson s }, [StoreOp.findById id])

/-! ### Express routing -/

/-- One segment of a route pattern: a literal, or a named parameter. -/
inductive Seg where
  | lit (s : String) : Seg
  | param (s : String) : Seg
deriving Repr, DecidableEq

/-- An HTTP method of this app. -/
inductive Method where
  | get : Method
  | post : Method
deriving Repr, DecidableEq

/-- The handlers of this app, as dispatch targets. -/
inductive RouteTag where
  | home : RouteTag
  | listAllRoute : RouteTag
  | createRoute : RouteTag
  | namesRoute : RouteTag
  | byIdRoute : RouteTag
deriving Repr, DecidableEq

/-- A registered route: method, path pattern, handler. -/
structure RouteEntry where
  method : Method
  pattern : List Seg
  tag : RouteTag

/-- Whether a pattern matches a path (segment lists): literals must be
equal, a parameter matches any single segment. -/
def patMatch : List Seg → List String → Bool
  | [], [] => true
  | Seg.lit s :: ps, x :: xs => s == x && patMatch ps xs
  | Seg.param _ :: ps, _ :: xs => patMatch ps xs
  | _, _ => false

/-- The app's routes, in registration order (app.js lines 13, 57, 67, 99,
130). -/
def routes : List RouteEntry :=
  [ { method := Method.get, pattern := [], tag := RouteTag.home },
    { method := Method.get, pattern := [Seg.lit "subscribers"], tag := RouteTag.listAllRoute },
    { method := Method.post, pattern := [Seg.lit "subscribers"], tag := RouteTag.createRoute },
    { method := Method.get, pattern := [Seg.lit "subscribers", Seg.lit "name"],
      tag := RouteTag.namesRoute },
    { method := Method.get, pattern := [Seg.lit "subscribers", Seg.param "id"],
      tag := RouteTag.byIdRoute } ]

/-- Express dispatch: the first registered route whose method and pattern
match the request wins. -/
def dispatch (m : Method) (path : List String) : Option RouteTag :=
  (routes.find? (fun r => r.method == m && patMatch r.pattern path)).map RouteEntry.tag

/-! ### The seeding script -/

/-- The collection state left behind by an `insertMany` that failed after
inserting the first `k` records. -/
def insertManyUpTo (store : Store) (recs : List Subscriber) (k : Nat) : Store :=
  store ++ recs.take k

/-- `refreshAll` of `src/createDatabase.js` (lines 16–22): `deleteMany({})`,
then `insertMany(data)`, then `disconnect()`.  Returns the final collection
state, the trace of store operations in execution order, whether
`disconnect` was reached, and the propagated error when the bulk insert
fails after `k` records. -/
def refreshAll (data : List Subscriber) (store : Store) (failAt : Option Nat) :
    Store × List StoreOp × Bool × Option String :=
  let cleared : Store := applyOp store StoreOp.deleteMany
  match failAt with
  | some k =>
      (insertManyUpTo cleared data k,
       [StoreOp.deleteMany, StoreOp.insertMany (data.take k)], false,
       some ("insertMany failed after " ++ toString (List.take k data).length))
  | none =>
      (applyOp cleared (StoreOp.insertMany data),
       [StoreOp.deleteMany, StoreOp.insertMany data], true, none)

/-! ### Helper lemmas -/

/-- A non-empty string is not `isEmpty`. -/
theorem isEmpty_false_of_ne (s : String) (h : s ≠ "") : s.isEmpty = false := by
  by_contra hne
  exact h ((String.isEmpty_iff s).mp (by simpa using hne))

/-- The by-id handler records exactly one `findById` call on every path. -/
theorem getSubscriberById_ops (store : Store) (id : String) (sf : Option String) :
    (getSubscriberById store id sf).2 = [StoreOp.findById id] := by
  unfold getSubscriberById
  cases findByIdStore store id sf with
  | error e => rfl
  | ok o => cases o <;> rfl

/-! ### Claims -/

/-- C2: for every id, `GET /subscribers/:id` returns the same 400 response
`{"message": "Subscriber not found"}` in all three failure cases — an
injected store failure, a malformed identifier, and a well-formed
identifier matching no document — so the cases are indistinguishable. -/
theorem getById_notFound_collapse (store : Store) (id msg : String) :
    (getSubscriberById store id (some msg)).1 = subscriberNotFound ∧
    (isValidObjectId id = false →
      (getSubscriberById store id none).1 = subscriberNotFound) ∧
    (isValidObjectId id = true → (∀ s ∈ store, s._id ≠ id) →
      (getSubscriberById store id none).1 = subscriberNotFound) := by
  refine ⟨rfl, ?_, ?_⟩
  · intro h
    simp [getSubscriberById, findByIdStore, h]
  · intro hv hfresh
    have hfind : store.find? (fun s => s._id == id) = none := by
      rw [List.find?_eq_none]
      intro s hs
      simpa using hfresh s hs
    simp [getSubscriberById, findByIdStore, hv, hfind]

/-- Witness for C2 at concrete inputs: a malformed id, a fresh well-formed
id over the empty store, and an injected store failure. -/
theorem getById_notFound_collapse_witness :
    (getSubscriberById [] "zz" none).1 = subscriberNotFound ∧
    (getSubscriberById [] "0123456789abcdef01234567" none).1 = subscriberNotFound ∧
    (getSubscriberById [] "zz" (some "boom")).1 = subscriberNotFound := by
  refine ⟨?_, ?_, ?_⟩
  · exact (getById_notFound_collapse [] "zz" "boom").2.1 (by decide)
  · exact (getById_notFound_collapse [] "0123456789abcdef01234567" "boom").2.2
      (by decide) (by simp)
  · exact (getById_notFound_collapse [] "zz" "boom").1

/-- C3: `POST /subscribers` with `name` omitted, `subscribedChannel`
omitted, or both, returns 400 with exactly the message
"Name and subscribedChannel are required.", performs no store operation,
and leaves the collection unchanged. -/
theorem post_missing_fields (body : Body) (fid : String) (sf : Option String)
    (store : Store) (h : body.name = none ∨ body.subscribedChannel = none) :
    postSubscribers body fid sf = (requiredFieldsResp, []) ∧
    applyOps (postSubscribers body fid sf).2 store = store := by
  have htf : fieldTruthy body.name = false ∨ fieldTruthy body.subscribedChannel = false := by
    rcases h with h | h
    · exact Or.inl (by rw [h]; rfl)
    · exact Or.inr (by rw [h]; rfl)
  have hmain : postSubscribers body fid sf = (requiredFieldsResp, []) := by
    unfold postSubscribers
    rcases htf with h' | h' <;> simp [h']
  exact ⟨hmain, by rw [hmain]; rfl⟩

/-- Witness for C3: `name` omitted, `subscribedChannel` present. -/
theorem post_missing_fields_witness :
    (Body.mk none (some (JsonV.str "Tech"))).name = none ∧
    postSubscribers (Body.mk none (some (JsonV.str "Tech"))) "id1" none
      = (requiredFieldsResp, []) :=
  ⟨rfl, (post_missing_fields (Body.mk none (some (JsonV.str "Tech"))) "id1" none []
    (Or.inl rfl)).1⟩

/-- C9: a body field that is present but bound to a falsy JSON value
(`null`, `""`, `0`, `false`) takes the same 400 path as an omitted field:
the fixed message is returned and no store call is made, because presence
is checked by truthiness. -/
theorem post_falsy_fields (body : Body) (fid : String) (sf : Option String)
    (store : Store)
    (h : (∃ v, body.name = some v ∧ jsonTruthy v = false) ∨
         (∃ v, body.subscribedChannel = some v ∧ jsonTruthy v = false)) :
    postSubscribers body fid sf = (requiredFieldsResp, []) ∧
    applyOps (postSubscribers body fid sf).2 store = store := by
  have htf : fieldTruthy body.name = false ∨ fieldTruthy body.subscribedChannel = false := by
    rcases h with ⟨v, hv, hf⟩ | ⟨v, hv, hf⟩
    · exact Or.inl (by rw [hv]; simpa [fieldTruthy] using hf)
    · exact Or.inr (by rw [hv]; simpa [fieldTruthy] using hf)
  have hmain : postSubscribers body fid sf = (requiredFieldsResp, []) := by
    unfold postSubscribers
    rcases htf with h' | h' <;> simp [h']
  exact ⟨hmain, by rw [hmain]; rfl⟩

/-- Witness for C9: `name` bound to the number `0`, a truthy channel. -/
theorem post_falsy_fields_witness :
    jsonTruthy (JsonV.num 0) = false ∧
    postSubscribers (Body.mk (some (JsonV.num 0)) (some (JsonV.str "Tech"))) "id1" none
      = (requiredFieldsResp, []) :=
  ⟨by decide,
   (post_falsy_fields (Body.mk (some (JsonV.num 0)) (some (JsonV.str "Tech"))) "id1" none []
     (Or.inl ⟨JsonV.num 0, rfl, by decide⟩)).1⟩

/-- C5: a request for the literal path `/subscribers/name` dispatches to
the names-projection handler, never to the parametric `/subscribers/:id`
handler, even though the parametric pattern also matches that path — the
literal route wins by registration order. -/
theorem namesRoute_precedence :
    dispatch Method.get ["subscribers", "name"] = some RouteTag.namesRoute ∧
    patMatch [Seg.lit "subscribers", Seg.param "id"] ["subscribers", "name"] = true := by
  exact ⟨by decide, by decide⟩

/-- C7: `GET /subscribers` performs exactly one `find()` call; on success
it returns 200 with the full serialised collection, and on a store failure
it returns 500 with `{"message": <error text>}`. -/
theorem getSubscribers_contract (store : Store) (msg : String) :
    getSubscribers store none
      = ({ status := 200, body := JsonV.arr (store.map subToJson) }, [StoreOp.find]) ∧
    getSubscribers store (some msg) = (serverError msg, [StoreOp.find]) ∧
    ∀ sf : Option String, (getSubscribers store sf).2 = [StoreOp.find] := by
  refine ⟨rfl, rfl, ?_⟩
  intro sf
  cases sf <;> rfl

/-- C8: `GET /subscribers` does not change the store, and a second call
with no intervening writes returns the identical result. -/
theorem getSubscribers_idempotent (store : Store) :
    applyOps (getSubscribers store none).2 store = store ∧
    (getSubscribers (applyOps (getSubscribers store none).2 store) none).1
      = (getSubscribers store none).1 :=
  ⟨rfl, rfl⟩

/-- C1: posting a valid pair (both non-empty) returns 201 with the created
document including its assigned identifier, the save appends exactly that
document to the store, and a subsequent `GET /subscribers/:id` on the
returned identifier (with no intervening writes) returns 200 with a
document whose `name` and `subscribedChannel` equal the posted values. -/
theorem post_then_get_roundtrip (store : Store) (n c fid : String)
    (hn : n ≠ "") (hc : c ≠ "")
    (hvalid : isValidObjectId fid = true)
    (hfresh : ∀ s ∈ store, s._id ≠ fid) :
    postSubscribers
        { name := some (JsonV.str n), subscribedChannel := some (JsonV.str c) } fid none
      = ({ status := 201,
           body := subToJson { _id := fid, name := n, subscribedChannel := c } },
         [StoreOp.save { _id := fid, name := n, subscribedChannel := c }]) ∧
    applyOps
        (postSubscribers
          { name := some (JsonV.str n), subscribedChannel := some (JsonV.str c) } fid none).2
        store
      = store ++ [{ _id := fid, name := n, subscribedChannel := c }] ∧
    (getSubscriberById
        (store ++ [{ _id := fid, name := n, subscribedChannel := c }]) fid none).1
      = { status := 200,
          body := subToJson { _id := fid, name := n, subscribedChannel := c } } := by
  have hne : n.isEmpty = false := isEmpty_false_of_ne n hn
  have hce : c.isEmpty = false := isEmpty_false_of_ne c hc
  have hpost : postSubscribers
      { name := some (JsonV.str n), subscribedChannel := some (JsonV.str c) } fid none
      = ({ status := 201,
           body := subToJson { _id := fid, name := n, subscribedChannel := c } },
         [StoreOp.save { _id := fid, name := n, subscribedChannel := c }]) := by
    simp [postSubscribers, fieldTruthy, jsonTruthy, hne, hce, jsonAsString]
  refine ⟨hpost, by rw [hpost]; rfl, ?_⟩
  have h1 : store.find? (fun s => s._id == fid) = none := by
    rw [List.find?_eq_none]
    intro s hs
    simpa using hfresh s hs
  simp [getSubscriberById, findByIdStore, hvalid, h1]

/-- Witness for C1: posting `{name: "John", subscribedChannel: "Tech"}`
into the empty store with a concrete fresh ObjectId. -/
theorem post_then_get_roundtrip_witness :
    ("John" : String) ≠ "" ∧ isValidObjectId "0123456789abcdef01234567" = true ∧
    (getSubscriberById
        ([] ++ [{ _id := "0123456789abcdef01234567", name := "John",
                  subscribedChannel := "Tech" }])
        "0123456789abcdef01234567" none).1
      = { status := 200,
          body := subToJson { _id := "0123456789abcdef01234567", name := "John",
                              subscribedChannel := "Tech" } } :=
  ⟨by decide, by decide,
   (post_then_get_roundtrip [] "John" "Tech" "0123456789abcdef01234567"
     (by decide) (by decide) (by decide) (by simp)).2.2⟩

/-- C4: `GET /subscribers/name` returns 200 with the projected collection,
and every object in the returned array has exactly the keys `name` and
`subscribedChannel` — no identifier field. -/
theorem names_projection_no_id (store : Store) :
    (getSubscriberNames store none).1
      = { status := 200, body := JsonV.arr (store.map nameDocJson) } ∧
    ∀ j ∈ store.map nameDocJson,
      jsonObjKeys j = ["name", "subscribedChannel"] ∧ "_id" ∉ jsonObjKeys j := by
  refine ⟨rfl, ?_⟩
  intro j hj
  rcases List.mem_map.mp hj with ⟨s, _, rfl⟩
  exact ⟨rfl, by simp [nameDocJson, jsonObjKeys]⟩

/-- Witness for C4 on a one-document store. -/
theorem names_projection_no_id_witness :
    jsonObjKeys (nameDocJson { _id := "id1", name := "a", subscribedChannel := "c1" })
      = ["name", "subscribedChannel"] ∧
    "_id" ∉ jsonObjKeys (nameDocJson { _id := "id1", name := "a", subscribedChannel := "c1" }) :=
  (names_projection_no_id [{ _id := "id1", name := "a", subscribedChannel := "c1" }]).2
    (nameDocJson { _id := "id1", name := "a", subscribedChannel := "c1" }) (by simp)

/-- C6: the seeding script clears the collection, then bulk-inserts the
seed data, then disconnects, in that order; on success the collection
equals the seed data; if the bulk insert fails after `k` of the records,
the collection is left cleared holding exactly the first `k` records,
`disconnect` is never reached, and the error propagates unhandled. -/
theorem refreshAll_clear_insert_disconnect (data : List Subscriber) (store : Store)
    (k : Nat) (hk : k < data.length) :
    refreshAll data store none
      = (data, [StoreOp.deleteMany, StoreOp.insertMany data], true, none) ∧
    (refreshAll data store (some k)).1 = data.take k ∧
    (refreshAll data store (some k)).1.length = k ∧
    (refreshAll data store (some k)).2.1
      = [StoreOp.deleteMany, StoreOp.insertMany (data.take k)] ∧
    (refreshAll data store (some k)).2.2.1 = false ∧
    (refreshAll data store (some k)).2.2.2 ≠ none := by
  refine ⟨?_, ?_, ?_, rfl, rfl, by simp [refreshAll]⟩
  · simp [refreshAll, applyOp]
  · simp [refreshAll, insertManyUpTo, applyOp]
  · simp [refreshAll, insertManyUpTo, applyOp, List.length_take, Nat.min_eq_left hk.le]

/-- Witness for C6: a two-record dataset failing after the first record,
run against a non-empty store. -/
theorem refreshAll_clear_insert_disconnect_witness :
    1 < ([{ _id := "i1", name := "a", subscribedChannel := "c1" },
          { _id := "i2", name := "b", subscribedChannel := "c2" }] : Store).length ∧
    (refreshAll
        [{ _id := "i1", name := "a", subscribedChannel := "c1" },
         { _id := "i2", name := "b", subscribedChannel := "c2" }]
        [{ _id := "i0", name := "z", subscribedChannel := "c0" }] (some 1)).1
      = [{ _id := "i1", name := "a", subscribedChannel := "c1" }] :=
  ⟨by decide,
   by simpa using
     (refreshAll_clear_insert_disconnect
       [{ _id := "i1", name := "a", subscribedChannel := "c1" },
        { _id := "i2", name := "b", subscribedChannel := "c2" }]
       [{ _id := "i0", name := "z", subscribedChannel := "c0" }] 1 (by decide)).2.1⟩

/-- C10: each GET handler records only read operations, so the collection
is identical before and after the request, on the success path and on
every failure path. -/
theorem get_handlers_readonly (store : Store) (id : String) (sf : Option String) :
    ((getSubscribers store sf).2.all isReadOp = true ∧
      applyOps (getSubscribers store sf).2 store = store) ∧
    ((getSubscriberNames store sf).2.all isReadOp = true ∧
      applyOps (getSubscriberNames store sf).2 store = store) ∧
    ((getSubscriberById store id sf).2.all isReadOp = true ∧
      applyOps (getSubscriberById store id sf).2 store = store) := by
  refine ⟨?_, ?_, ?_⟩
  · cases sf <;> exact ⟨rfl, rfl⟩
  · cases sf <;> exact ⟨rfl, rfl⟩
  · rw [getSubscriberById_ops store id sf]
    exact ⟨rfl, rfl⟩
